import Mathlib

/-!
Shallow embedding of the e-commerce content automation service
(`src/unnamed/part_000`, the server variant wired to `src/error-handler.js`,
and `src/error-handler.js` itself).

External collaborators (the OpenAI text provider and the Google Sheets
store) are modelled as oracles: each per-kind provider call is a value of
`ProviderOutcome` supplied by the environment, and spreadsheet rows are
given as lists of strings.  Wall-clock timestamps are passed in as an
explicit `now : String` parameter where the code attaches them to a
payload, and are omitted from result records where no claim mentions them.

JavaScript runtime values that can appear in the relevant fields are
modelled by `JSVal` (the JSON scalars: undefined, null, booleans, numbers,
strings).  JS numbers are modelled as exact signed decimals
(`JSNumber`), which is exact for every decimal literal the validator's
checks can meet; no claim involves floating-point rounding.  The fragment
of `Number(...)` / `parseFloat` semantics the validator exercises —
optional sign, decimal digits, optional fractional part, whitespace
handling, NaN on failure — is embedded; exponents, hex literals and
`Infinity` are outside every claim's inputs and parse as NaN here, which
only widens the NaN case the claims are about.  String trimming is
implemented on the underlying character list.
-/

namespace ContentAutomation

/-- Equality of `Except` values is decidable when it is on both sides. -/
instance {ε α : Type} [DecidableEq ε] [DecidableEq α] : DecidableEq (Except ε α) := fun a b =>
  match a, b with
  | .ok x, .ok y =>
    if h : x = y then isTrue (h ▸ rfl) else isFalse (fun hc => h (Except.ok.inj hc))
  | .error x, .error y =>
    if h : x = y then isTrue (h ▸ rfl) else isFalse (fun hc => h (Except.error.inj hc))
  | .ok _, .error _ => isFalse (fun hc => Except.noConfusion hc)
  | .error _, .ok _ => isFalse (fun hc => Except.noConfusion hc)

/-- An exact signed decimal, denoting
`(if neg then -1 else 1) * mantissa / 10 ^ scale`.  This carries every
number the validator's decimal parsing can produce, and the only two
observations the code makes of a number — is it NaN (absence, via
`Option`), is it negative — are exact on it. -/
structure JSNumber where
  neg : Bool
  mantissa : ℕ
  scale : ℕ
deriving DecidableEq, Repr

/-- Whether the denoted number is strictly negative (note `-0` is not). -/
def JSNumber.isNeg (n : JSNumber) : Bool := n.neg && n.mantissa != 0

/-- JavaScript scalar values as they can reach the validator's fields. -/
inductive JSVal where
  | undefV : JSVal
  | nullV : JSVal
  | boolV : Bool → JSVal
  | num : JSNumber → JSVal
  | str : String → JSVal
deriving DecidableEq, Repr

/-- JavaScript truthiness for the modelled scalars
(`undefined`, `null`, `false`, `0`, `""` are falsy). -/
def truthy : JSVal → Bool
  | .undefV => false
  | .nullV => false
  | .boolV b => b
  | .num n => n.mantissa != 0
  | .str s => s != ""

/-- Whether `typeof v === 'string'`. -/
def isStringVal : JSVal → Bool
  | .str _ => true
  | _ => false

/-- Decimal digit test. -/
def isDigitChar (c : Char) : Bool := '0' ≤ c && c ≤ '9'

/-- Value of a digit string read in base 10. -/
def digitsVal (l : List Char) : ℕ :=
  l.foldl (fun n c => 10 * n + (c.toNat - 48)) 0

/-- Whitespace trimming on a character list (both ends), modelling
`String.prototype.trim` and the trimming `Number(...)` performs. -/
def trimChars (cs : List Char) : List Char :=
  ((cs.dropWhile Char.isWhitespace).reverse.dropWhile Char.isWhitespace).reverse

/-- `v.trim()` on a string value. -/
def jsTrim (s : String) : String :=
  ⟨trimChars s.toList⟩

/-- `parseFloat`-style parse of an unsigned decimal prefix: reads leading
digits, then an optional `.` and more digits, ignoring anything after;
`none` (NaN) when no digit was read at all.  Result is (mantissa, scale). -/
def parseUnsignedDecimal (cs : List Char) : Option (ℕ × ℕ) :=
  let intPart := cs.takeWhile isDigitChar
  let rest := cs.dropWhile isDigitChar
  let fracPart :=
    match rest with
    | '.' :: rest2 => rest2.takeWhile isDigitChar
    | _ => []
  if intPart.isEmpty && fracPart.isEmpty then none
  else some (digitsVal intPart * 10 ^ fracPart.length + digitsVal fracPart, fracPart.length)

/-- Signed decimal prefix parse (an optional `+`/`-` sign first). -/
def parseSignedDecimal (cs : List Char) : Option JSNumber :=
  match cs with
  | '-' :: rest => (parseUnsignedDecimal rest).map (fun p => ⟨true, p.1, p.2⟩)
  | '+' :: rest => (parseUnsignedDecimal rest).map (fun p => ⟨false, p.1, p.2⟩)
  | _ => (parseUnsignedDecimal cs).map (fun p => ⟨false, p.1, p.2⟩)

/-- JavaScript `parseFloat` on a string: skip leading whitespace, parse the
longest signed decimal prefix, NaN (`none`) when none exists. -/
def parseFloatString (s : String) : Option JSNumber :=
  parseSignedDecimal (s.toList.dropWhile Char.isWhitespace)

/-- Full-string unsigned decimal parse used by `Number(...)`: digits, an
optional `.` and further digits, nothing else, at least one digit. -/
def strictUnsignedDecimal (cs : List Char) : Option (ℕ × ℕ) :=
  match cs.dropWhile isDigitChar with
  | [] => if cs.isEmpty then none else some (digitsVal cs, 0)
  | '.' :: rest2 =>
    if !(rest2.dropWhile isDigitChar).isEmpty then none
    else if (cs.takeWhile isDigitChar).isEmpty && rest2.isEmpty then none
    else some (digitsVal (cs.takeWhile isDigitChar) * 10 ^ rest2.length + digitsVal rest2, rest2.length)
  | _ => none

/-- Full-string signed decimal parse. -/
def strictSignedDecimal (cs : List Char) : Option JSNumber :=
  match cs with
  | '-' :: rest => (strictUnsignedDecimal rest).map (fun p => ⟨true, p.1, p.2⟩)
  | '+' :: rest => (strictUnsignedDecimal rest).map (fun p => ⟨false, p.1, p.2⟩)
  | _ => (strictUnsignedDecimal cs).map (fun p => ⟨false, p.1, p.2⟩)

/-- `Number(s)` for a string: trims whitespace, the empty string is `0`,
otherwise the whole remainder must be a signed decimal, else NaN. -/
def numberOfString (s : String) : Option JSNumber :=
  let cs := trimChars s.toList
  if cs.isEmpty then some ⟨false, 0, 0⟩ else strictSignedDecimal cs

/-- `Number(v)` coercion (`none` models NaN):
`undefined → NaN`, `null → 0`, booleans to `0`/`1`, strings as above. -/
def jsToNumber : JSVal → Option JSNumber
  | .undefV => none
  | .nullV => some ⟨false, 0, 0⟩
  | .boolV b => some ⟨false, if b then 1 else 0, 0⟩
  | .num n => some n
  | .str s => numberOfString s

/-- Global `isNaN(v)`: coerce with `Number` and test for NaN. -/
def jsIsNaN (v : JSVal) : Bool := (jsToNumber v).isNone

/-- `parseFloat(v)`: the argument is first coerced to string
(`undefined → "undefined"`, `null → "null"`, booleans to `"true"/"false"`,
none of which starts with a digit, hence NaN); a number value round-trips
through its decimal printing. -/
def parseFloatVal : JSVal → Option JSNumber
  | .undefV => none
  | .nullV => none
  | .boolV _ => none
  | .num n => some n
  | .str s => parseFloatString s

/-- The error values thrown by the service.  `apiError` covers the
`APIError` class hierarchy of `src/error-handler.js` (message, statusCode,
code, and the `field` tag set by `ValidationError`); `plain` covers any
non-`APIError` failure, carrying its optional `.message` and optional
numeric `.status` (the shape the OpenAI client's errors expose). -/
inductive JSError where
  | apiError : String → ℕ → String → Option String → JSError
  | plain : Option String → Option ℕ → JSError
deriving DecidableEq, Repr

/-- `new ValidationError(message)` (statusCode 400, code VALIDATION_ERROR,
no field tag). -/
def mkValidationError (message : String) : JSError :=
  .apiError message 400 "VALIDATION_ERROR" none

/-- The default `QuotaError` message. -/
def quotaErrorDefaultMessage : String :=
  "API quota exceeded. Please check your plan and billing details."

/-- `new QuotaError()` (statusCode 429, code QUOTA_EXCEEDED). -/
def mkQuotaError : JSError :=
  .apiError quotaErrorDefaultMessage 429 "QUOTA_EXCEEDED" none

/-- `new OpenAIError(message, statusCode)` (code OPENAI_ERROR). -/
def mkOpenAIError (message : String) (statusCode : ℕ) : JSError :=
  .apiError message statusCode "OPENAI_ERROR" none

/-- `error.message` of a thrown value. -/
def errMessage : JSError → String
  | .apiError m _ _ _ => m
  | .plain m _ => m.getD ""

/-- `err.statusCode || 500`, as read by the `errorHandler` middleware to
pick the HTTP status (`plain` errors have no `statusCode`). -/
def errorStatusCode : JSError → ℕ
  | .apiError _ sc _ _ => sc
  | .plain _ _ => 500

/-- A product record as assembled from a request body or a spreadsheet
row: the seven fields read by the server. -/
structure ProductData where
  sku : JSVal
  name : JSVal
  category : JSVal
  features : JSVal
  price : JSVal
  audience : JSVal
  useCase : JSVal
deriving DecidableEq, Repr

/-- The check `!v || v.trim() === ''` applied to a required field.
When `v` is truthy but not a string, `.trim()` is not a function and the
evaluation throws a TypeError, modelled as `Except.error` with the
runtime's message. -/
def requiredMissingOrBlank (v : JSVal) : Except String Bool :=
  if truthy v then
    match v with
    | .str s => .ok (jsTrim s == "")
    | _ => .error "trim is not a function"
  else
    .ok true

/-- The price check
`data.price !== undefined && (isNaN(data.price) || parseFloat(data.price) < 0)`.
`NaN < 0` is false in JavaScript, so a `parseFloat` NaN does not by itself
reject (only an `isNaN` coercion failure does). -/
def priceViolationB (v : JSVal) : Bool :=
  v != .undefV &&
    (jsIsNaN v ||
      (match parseFloatVal v with
       | some n => n.isNeg
       | none => false))

/-- The features check `data.features && typeof data.features !== 'string'`. -/
def featuresViolationB (v : JSVal) : Bool :=
  truthy v && !isStringVal v

/-- The `errors` array built by `validateProductData`, in source order;
`Except.error` models a TypeError escaping from a `.trim()` call. -/
def productViolations (d : ProductData) : Except String (List String) := do
  let nameBad ← requiredMissingOrBlank d.name
  let catBad ← requiredMissingOrBlank d.category
  let l1 := if nameBad then ["Product name is required"] else []
  let l2 := if catBad then l1 ++ ["Product category is required"] else l1
  let l3 := if priceViolationB d.price then l2 ++ ["Product price must be a valid positive number"] else l2
  let l4 := if featuresViolationB d.features then l3 ++ ["Product features must be a string"] else l3
  pure l4

/-- `validateProductData` (`src/error-handler.js` lines 88–110): collect
every violation, then throw a single `ValidationError` whose message is
the violations joined with `"; "`; return normally when there is none. -/
def validateProductData (d : ProductData) : Except JSError Unit :=
  match productViolations d with
  | .error m => .error (.plain (some m) none)
  | .ok errs =>
    if errs.length > 0 then .error (mkValidationError (String.intercalate "; " errs))
    else .ok ()

/-- The four content kinds, named as the `contentTypes` strings of
`generateAllContent` (the code's `aContent` is the spec's "A+ content"). -/
inductive ContentKind where
  | title : ContentKind
  | bulletPoints : ContentKind
  | aContent : ContentKind
  | adCopy : ContentKind
deriving DecidableEq, Repr

/-- The string the code uses for a kind (the key of `PROMPTS` / `results`). -/
def kindName : ContentKind → String
  | .title => "title"
  | .bulletPoints => "bulletPoints"
  | .aContent => "aContent"
  | .adCopy => "adCopy"

/-- The fixed iteration order of `generateAllContent`'s loop:
`['title', 'bulletPoints', 'aContent', 'adCopy']`. -/
def contentTypes : List ContentKind :=
  [.title, .bulletPoints, .aContent, .adCopy]

/-- What the external provider call
(`openai.chat.completions.create` and the surrounding response access)
does on one invocation: either the text payload it yields, or a failure
exposing an optional numeric `.status` and a `.message`. -/
structure ProviderFailure where
  status : Option ℕ
  message : String
deriving DecidableEq, Repr

/-- Outcome of one provider call, supplied by the environment. -/
inductive ProviderOutcome where
  | ok : String → ProviderOutcome
  | err : ProviderFailure → ProviderOutcome
deriving DecidableEq, Repr

/-- `generateContent(contentType, productData)`
(`src/unnamed/part_000` lines 148–179): on provider success return the
trimmed text; on failure classify by the reported status —
429 → `QuotaError`, 401 → `OpenAIError('Invalid OpenAI API key', 401)`,
anything else → `OpenAIError` with the kind-tagged wrapped message and the
default statusCode 500. -/
def generateContent (outcome : ProviderOutcome) (contentType : ContentKind) :
    Except JSError String :=
  match outcome with
  | .ok text => .ok (jsTrim text)
  | .err e =>
    if e.status == some 429 then .error mkQuotaError
    else if e.status == some 401 then .error (mkOpenAIError "Invalid OpenAI API key" 401)
    else .error (mkOpenAIError ("Failed to generate " ++ kindName contentType ++ ": " ++ e.message) 500)

/-- A per-request provider oracle: the outcome of the call made for each
content kind. -/
def ProviderOracle : Type := ContentKind → ProviderOutcome

/-- The call `generateContent(contentType, productData)` as issued by
`generateAllContent`'s loop under oracle `o`. -/
def genCall (o : ProviderOracle) (k : ContentKind) : Except JSError String :=
  generateContent (o k) k

/-- The result object of `generateAllContent` for a record that passed
validation: `data` is the `results` object (insertion-ordered kind/text
pairs), `errors` is the pushed failure list, `undefined` (`none`) when
empty, and `status` is derived from it.  The `timestamp` field is not
modelled (wall clock). -/
structure GenerationResult where
  productName : JSVal
  status : String
  data : List (ContentKind × String)
  errors : Option (List (ContentKind × String))
deriving DecidableEq, Repr

/-- The failure list of a result, reading `none` as the empty list. -/
def errorsOf (r : GenerationResult) : List (ContentKind × String) :=
  r.errors.getD []

/-- One iteration of `generateAllContent`'s `for` loop: a success is
appended to `results`, a caught error's message is pushed (with its
`contentType`) onto `errors`. -/
def genStep (o : ProviderOracle)
    (acc : List (ContentKind × String) × List (ContentKind × String))
    (k : ContentKind) :
    List (ContentKind × String) × List (ContentKind × String) :=
  match genCall o k with
  | .ok t => (acc.1 ++ [(k, t)], acc.2)
  | .error e => (acc.1, acc.2 ++ [(k, errMessage e)])

/-- The `results` / `errors` pair after the loop over `contentTypes`. -/
def generateAllContentCore (o : ProviderOracle) :
    List (ContentKind × String) × List (ContentKind × String) :=
  contentTypes.foldl (genStep o) ([], [])

/-- The object `generateAllContent` returns once the loop is done. -/
def generateAllContentOk (o : ProviderOracle) (d : ProductData) : GenerationResult :=
  { productName := d.name
    status := if (generateAllContentCore o).2.length == 0 then "success" else "partial_success"
    data := (generateAllContentCore o).1
    errors := if (generateAllContentCore o).2.length > 0 then some (generateAllContentCore o).2 else none }

/-- `generateAllContent(productData)` (`src/unnamed/part_000` lines
182–211): validate (a validation throw propagates — the outer
`catch { throw error }` rethrows), then run the four per-kind calls, each
in its own try/catch, and return the aggregate. -/
def generateAllContent (o : ProviderOracle) (d : ProductData) :
    Except JSError GenerationResult :=
  match validateProductData d with
  | .error e => .error e
  | .ok _ => .ok (generateAllContentOk o d)

/-- `row[i]`: a present cell is a string, a missing trailing column is
`undefined`. -/
def rowCell (row : List String) (i : ℕ) : JSVal :=
  match row.get? i with
  | some s => .str s
  | none => .undefV

/-- The `productData` object built from a data row in the
`/api/process-products` loop, by fixed column position
`[sku, name, category, features, price, audience, useCase]`. -/
def rowToProduct (row : List String) : ProductData :=
  { sku := rowCell row 0
    name := rowCell row 1
    category := rowCell row 2
    features := rowCell row 3
    price := rowCell row 4
    audience := rowCell row 5
    useCase := rowCell row 6 }

/-- A per-batch oracle: the provider outcomes for the data row at each
position. -/
def BatchOracle : Type := ℕ → ProviderOracle

/-- The `for (const row of productRows)` loop body of
`/api/process-products` (`src/unnamed/part_000` lines 278–291), starting
at data-row index `i`: each row's `generateAllContent` result is pushed;
the loop has no per-row catch, so a thrown error (a row's validation
failure) propagates to the route's `catch` and aborts the batch. -/
def processLoop (o : BatchOracle) : List (List String) → ℕ → Except JSError (List GenerationResult)
  | [], _ => .ok []
  | row :: rest, i =>
    match generateAllContent (o i) (rowToProduct row) with
    | .error e => .error e
    | .ok r =>
      match processLoop o rest (i + 1) with
      | .error e => .error e
      | .ok l => .ok (r :: l)

/-- The row-processing part of `/api/process-products`
(`src/unnamed/part_000` lines 274–291): drop the header row
(`rows.slice(1)`) and run the loop; the value is the `results` array the
response reports (or the thrown error). -/
def processBatchRows (o : BatchOracle) (rows : List (List String)) :
    Except JSError (List GenerationResult) :=
  processLoop o (rows.drop 1) 0

/-- The fallback message of the generic branch of `formatErrorResponse`. -/
def unexpectedErrorMessage : String := "An unexpected error occurred"

/-- The JS comparison `error.status >= 500`: false when `status` is
`undefined` (in JS `undefined >= 500` is false), else the numeric test. -/
def statusAtLeast500 (status : Option ℕ) : Bool :=
  match status with
  | some n => decide (500 ≤ n)
  | none => false

/-- `formatErrorResponse` (`src/error-handler.js` lines 42–83), as the
ordered key/value pairs of the JSON payload it builds (`now` is the
wall-clock reading for the payload's timestamp).  An `APIError` keeps its
own message and code; `error.field || undefined` drops the `field` key
when the tag is absent or empty (an `undefined` member does not survive
JSON serialization); a non-`APIError` is classified by its `.status`
(429, 401, `>= 500` — false for a missing status — and otherwise the
generic branch with `error.message || fallback`). -/
def formatErrorResponse (now : String) : JSError → List (String × String)
  | .apiError msg _ code field =>
    [("error", msg), ("code", code)] ++
      (match field with
       | some f => if f == "" then [] else [("field", f)]
       | none => []) ++
      [("timestamp", now)]
  | .plain msg status =>
    if status == some 429 then
      [("error", quotaErrorDefaultMessage), ("code", "QUOTA_EXCEEDED"), ("timestamp", now)]
    else if status == some 401 then
      [("error", "Invalid API credentials. Please check your authentication."),
       ("code", "AUTH_ERROR"), ("timestamp", now)]
    else if statusAtLeast500 status then
      [("error", "External API error. Please try again later."),
       ("code", "EXTERNAL_ERROR"), ("timestamp", now)]
    else
      [("error", match msg with
                 | some m => if m == "" then unexpectedErrorMessage else m
                 | none => unexpectedErrorMessage),
       ("code", "UNKNOWN_ERROR"), ("timestamp", now)]

/-- The declarative form of the `!v || v.trim() === ''` violation on the
values where that expression evaluates without a TypeError. -/
def requiredViolationB (v : JSVal) : Bool :=
  match v with
  | .str s => jsTrim s == ""
  | _ => !truthy v

/-- Values on which a required-field check cannot hit the `.trim()`
TypeError: falsy values and strings. -/
def stringOrFalsy (v : JSVal) : Prop :=
  truthy v = false ∨ ∃ s, v = .str s

/-- The violation list of `validateProductData`, written declaratively:
one fixed message per violated constraint, in source order. -/
def violationMsgs (d : ProductData) : List String :=
  (if requiredViolationB d.name then ["Product name is required"] else []) ++
  (if requiredViolationB d.category then ["Product category is required"] else []) ++
  (if priceViolationB d.price then ["Product price must be a valid positive number"] else []) ++
  (if featuresViolationB d.features then ["Product features must be a string"] else [])

/-- A provider oracle whose only failing call is the one for `title`,
failing with HTTP status 401. -/
def oracle401 : ProviderOracle := fun k =>
  match k with
  | .title => .err { status := some 401, message := "Unauthorized" }
  | _ => .ok "generated text"

/-- A provider oracle on which every call succeeds. -/
def allOkOracle : ProviderOracle := fun _ => .ok "generated text"

/-- A provider oracle whose only failing call is the one for `adCopy`. -/
def adCopyFailsOracle : ProviderOracle := fun k =>
  match k with
  | .adCopy => .err { status := some 503, message := "Service Unavailable" }
  | _ => .ok "generated text"

/-- A provider oracle on which every call fails with HTTP status 503. -/
def allFailOracle : ProviderOracle := fun _ =>
  .err { status := some 503, message := "Service Unavailable" }

/-- A batch oracle on which every provider call of every row succeeds. -/
def allOkBatchOracle : BatchOracle := fun _ => allOkOracle

/-- A well-formed product record used by concrete witnesses. -/
def widgetProduct : ProductData :=
  { sku := .str "SKU1", name := .str "Widget", category := .str "Tools",
    features := .str "Durable", price := .str "19.99",
    audience := .undefV, useCase := .undefV }

/-- A product record with two violations: blank name, negative price. -/
def badProduct : ProductData :=
  { sku := .str "SKU9", name := .str "", category := .str "Tools",
    features := .str "Durable", price := .str "-5",
    audience := .undefV, useCase := .undefV }

/-- A valid record whose price is the string `"19.99"`. -/
def priced1999Product : ProductData :=
  { sku := .str "SKU1", name := .str "Widget", category := .str "Tools",
    features := .str "Durable", price := .str "19.99",
    audience := .undefV, useCase := .undefV }

/-- A valid record whose price is `null`. -/
def nullPricedProduct : ProductData :=
  { sku := .str "SKU1", name := .str "Widget", category := .str "Tools",
    features := .str "Durable", price := .nullV,
    audience := .undefV, useCase := .undefV }

/-- The header row of the concrete batch inputs below. -/
def headerRow : List String :=
  ["SKU", "Name", "Category", "Features", "Price", "Audience", "UseCase"]

/-- A data row that passes product validation. -/
def goodRow : List String :=
  ["SKU1", "Widget", "Tools", "Durable", "19.99"]

/-- A data row whose product validation fails (blank name). -/
def badRow : List String :=
  ["SKU2", "", "Tools", "Durable", "19.99"]

/-- A second data row that passes product validation. -/
def goodRow2 : List String :=
  ["SKU3", "Gadget", "Electronics"]

/-- `results[k] = t` after the loop, as a `filterMap` entry. -/
def dataEntry (o : ProviderOracle) (k : ContentKind) : Option (ContentKind × String) :=
  match genCall o k with
  | .ok t => some (k, t)
  | .error _ => none

/-- The `errors` entry pushed for kind `k`, as a `filterMap` entry. -/
def errEntry (o : ProviderOracle) (k : ContentKind) : Option (ContentKind × String) :=
  match genCall o k with
  | .ok _ => none
  | .error e => some (k, errMessage e)

lemma foldl_genStep (o : ProviderOracle) (l : List ContentKind)
    (acc : List (ContentKind × String) × List (ContentKind × String)) :
    l.foldl (genStep o) acc =
      (acc.1 ++ l.filterMap (dataEntry o), acc.2 ++ l.filterMap (errEntry o)) := by
  induction l generalizing acc with
  | nil => simp
  | cons k rest ih =>
    simp only [List.foldl_cons, List.filterMap_cons]
    rw [ih]
    cases h : genCall o k with
    | ok t => simp [genStep, dataEntry, errEntry, h]
    | error e => simp [genStep, dataEntry, errEntry, h]

lemma generateAllContentCore_eq (o : ProviderOracle) :
    generateAllContentCore o =
      (contentTypes.filterMap (dataEntry o), contentTypes.filterMap (errEntry o)) := by
  simpa [generateAllContentCore] using foldl_genStep o contentTypes ([], [])

lemma mem_data_iff (o : ProviderOracle) (k : ContentKind) (t : String) :
    (k, t) ∈ (generateAllContentCore o).1 ↔ genCall o k = .ok t := by
  rw [generateAllContentCore_eq]
  cases h1 : genCall o .title <;> cases h2 : genCall o .bulletPoints <;>
    cases h3 : genCall o .aContent <;> cases h4 : genCall o .adCopy <;>
    cases k <;>
    simp [contentTypes, dataEntry, h1, h2, h3, h4, eq_comm]

lemma mem_errors_iff (o : ProviderOracle) (k : ContentKind) (m : String) :
    (k, m) ∈ (generateAllContentCore o).2 ↔
      ∃ e, genCall o k = .error e ∧ errMessage e = m := by
  rw [generateAllContentCore_eq]
  cases h1 : genCall o .title <;> cases h2 : genCall o .bulletPoints <;>
    cases h3 : genCall o .aContent <;> cases h4 : genCall o .adCopy <;>
    cases k <;>
    simp [contentTypes, errEntry, h1, h2, h3, h4, eq_comm]

lemma errorsOf_generateAllContentOk (o : ProviderOracle) (d : ProductData) :
    errorsOf (generateAllContentOk o d) = (generateAllContentCore o).2 := by
  unfold errorsOf generateAllContentOk
  cases h : (generateAllContentCore o).2 with
  | nil => simp [h]
  | cons x xs => simp [h]

lemma status_generateAllContentOk (o : ProviderOracle) (d : ProductData) :
    (generateAllContentOk o d).status =
      (if (generateAllContentCore o).2 = [] then "success" else "partial_success") := by
  unfold generateAllContentOk
  cases h : (generateAllContentCore o).2 with
  | nil => simp [h]
  | cons x xs => simp [h]

lemma data_generateAllContentOk (o : ProviderOracle) (d : ProductData) :
    (generateAllContentOk o d).data = (generateAllContentCore o).1 := rfl

lemma generateAllContent_of_valid (o : ProviderOracle) (d : ProductData)
    (hv : validateProductData d = .ok ()) :
    generateAllContent o d = .ok (generateAllContentOk o d) := by
  unfold generateAllContent
  rw [hv]

lemma processLoop_all_valid (o : BatchOracle) (l : List (List String)) (i : ℕ)
    (h : ∀ row ∈ l, validateProductData (rowToProduct row) = .ok ()) :
    processLoop o l i =
      .ok ((List.enumFrom i l).map
        (fun p => generateAllContentOk (o p.1) (rowToProduct p.2))) := by
  induction l generalizing i with
  | nil => simp [processLoop]
  | cons row rest ih =>
    have hrow : validateProductData (rowToProduct row) = .ok () := h row (by simp)
    have hrest : ∀ r ∈ rest, validateProductData (rowToProduct r) = .ok () :=
      fun r hr => h r (by simp [hr])
    simp [processLoop, generateAllContent_of_valid (o i) (rowToProduct row) hrow,
      ih (i + 1) hrest, List.enumFrom]

lemma requiredMissingOrBlank_eq (v : JSVal) (h : stringOrFalsy v) :
    requiredMissingOrBlank v = .ok (requiredViolationB v) := by
  rcases h with hf | ⟨s, rfl⟩
  · cases v <;> simp_all [requiredMissingOrBlank, requiredViolationB, truthy, jsTrim, trimChars]
  · by_cases hs : s = ""
    · subst hs; decide
    · simp [requiredMissingOrBlank, requiredViolationB, truthy, hs]

lemma productViolations_eq (d : ProductData)
    (hn : stringOrFalsy d.name) (hc : stringOrFalsy d.category) :
    productViolations d = .ok (violationMsgs d) := by
  unfold productViolations violationMsgs
  rw [requiredMissingOrBlank_eq d.name hn, requiredMissingOrBlank_eq d.category hc]
  by_cases h1 : requiredViolationB d.name = true <;>
    by_cases h2 : requiredViolationB d.category = true <;>
    by_cases h3 : priceViolationB d.price = true <;>
    by_cases h4 : featuresViolationB d.features = true <;>
    simp_all [Bind.bind, Except.bind, Pure.pure, Except.pure]

lemma stringOrFalsy_no_featuresViolation (v : JSVal) (h : stringOrFalsy v) :
    featuresViolationB v = false := by
  rcases h with hf | ⟨s, rfl⟩
  · simp [featuresViolationB, hf]
  · simp [featuresViolationB, isStringVal]

/-- C1 (amended): the `/api/process-products` row loop drops the header
row unconditionally and, when every data row passes product validation,
returns one `GenerationResult` per data row in input row order (length
`N` for `N + 1` input rows) — per-kind provider failures are recorded
inside each row's result and do not drop or reorder rows.  However, a
row whose top-level validation fails is NOT recorded as a failed entry:
the loop has no per-row catch, so the `ValidationError` propagates and
aborts the whole batch (see the counterexample theorem). -/
theorem processBatch_header_and_order (o : BatchOracle) (rows : List (List String))
    (h : ∀ row ∈ rows.drop 1, validateProductData (rowToProduct row) = .ok ()) :
    processBatchRows o rows =
      .ok ((List.enumFrom 0 (rows.drop 1)).map
        (fun p => generateAllContentOk (o p.1) (rowToProduct p.2))) ∧
    ∀ l, processBatchRows o rows = .ok l → l.length = rows.length - 1 := by
  have hmain := processLoop_all_valid o (rows.drop 1) 0 h
  refine ⟨hmain, ?_⟩
  intro l hl
  unfold processBatchRows at hl
  rw [hmain] at hl
  cases Except.ok.inj hl
  simp

/-- C1 (counterexample to the claim as stated): on a table of 1 header
row and 2 data rows whose first data row fails product validation (blank
name), the loop does not return a 2-element `BatchResult` with a failed
entry for that row — it throws the row's `ValidationError`, aborting the
batch, even though every provider call would succeed. -/
theorem processBatch_aborts_on_invalid_row :
    processBatchRows allOkBatchOracle [headerRow, badRow, goodRow2] =
      .error (mkValidationError "Product name is required") := by
  decide

/-- Witness for C1 (amended) at a concrete 1-header + 2-valid-data-row
table with an all-succeeding provider. -/
theorem processBatch_header_and_order_witness :
    processBatchRows allOkBatchOracle [headerRow, goodRow, goodRow2] =
      .ok ((List.enumFrom 0 ([headerRow, goodRow, goodRow2].drop 1)).map
        (fun p => generateAllContentOk (allOkBatchOracle p.1) (rowToProduct p.2))) ∧
    ∀ l, processBatchRows allOkBatchOracle [headerRow, goodRow, goodRow2] = .ok l →
      l.length = [headerRow, goodRow, goodRow2].length - 1 :=
  processBatch_header_and_order allOkBatchOracle [headerRow, goodRow, goodRow2] (by decide)

/-- C2: for every record that passes validation and every provider
behaviour, `generateAllContent` returns a result in which each of the
four content kinds appears in exactly one of the two outcomes — as a key
with generated text in `data`, or as a kind-tagged entry in the failure
list — never in both and never in neither. -/
theorem generateAllContent_kind_partition (o : ProviderOracle) (d : ProductData)
    (hv : validateProductData d = .ok ()) (k : ContentKind) :
    ∃ r, generateAllContent o d = .ok r ∧
      (((∃ t, (k, t) ∈ r.data) ∧ ¬(∃ m, (k, m) ∈ errorsOf r)) ∨
       (¬(∃ t, (k, t) ∈ r.data) ∧ (∃ m, (k, m) ∈ errorsOf r))) := by
  refine ⟨generateAllContentOk o d, generateAllContent_of_valid o d hv, ?_⟩
  rw [data_generateAllContentOk, errorsOf_generateAllContentOk]
  cases hk : genCall o k with
  | ok t =>
    refine Or.inl ⟨⟨t, (mem_data_iff o k t).mpr hk⟩, ?_⟩
    rintro ⟨m, hm⟩
    obtain ⟨e, he, _⟩ := (mem_errors_iff o k m).mp hm
    rw [hk] at he
    exact Except.noConfusion he
  | error e =>
    refine Or.inr ⟨?_, ⟨errMessage e, (mem_errors_iff o k (errMessage e)).mpr ⟨e, hk, rfl⟩⟩⟩
    rintro ⟨t, ht⟩
    have hd := (mem_data_iff o k t).mp ht
    rw [hk] at hd
    exact Except.noConfusion hd

/-- Witness for C2 on a concrete valid record, an all-succeeding
provider, and the `title` kind. -/
theorem generateAllContent_kind_partition_witness :
    ∃ r, generateAllContent allOkOracle widgetProduct = .ok r ∧
      (((∃ t, (ContentKind.title, t) ∈ r.data) ∧
          ¬(∃ m, (ContentKind.title, m) ∈ errorsOf r)) ∨
       (¬(∃ t, (ContentKind.title, t) ∈ r.data) ∧
          (∃ m, (ContentKind.title, m) ∈ errorsOf r))) :=
  generateAllContent_kind_partition allOkOracle widgetProduct (by decide) .title

/-- C3: per-kind isolation in `generateAllContent` — each kind's entry in
the result is determined by that kind's own provider call alone (last
conjunct), and in the specific scenario where exactly the `adCopy` call
fails, the result holds the three generated texts of the other kinds (in
loop order), a single failure entry tagged `adCopy`, and status
`partial_success`. -/
theorem generateAllContent_isolated_adCopy_failure (o : ProviderOracle) (d : ProductData)
    (hv : validateProductData d = .ok ())
    (t1 t2 t3 : String) (e : JSError)
    (h1 : genCall o .title = .ok t1) (h2 : genCall o .bulletPoints = .ok t2)
    (h3 : genCall o .aContent = .ok t3) (h4 : genCall o .adCopy = .error e) :
    ∃ r, generateAllContent o d = .ok r ∧
      r.data = [(.title, t1), (.bulletPoints, t2), (.aContent, t3)] ∧
      r.errors = some [(.adCopy, errMessage e)] ∧
      r.status = "partial_success" ∧
      (∀ k t, ((k, t) ∈ r.data ↔ genCall o k = .ok t)) := by
  have hcore : generateAllContentCore o =
      ([(.title, t1), (.bulletPoints, t2), (.aContent, t3)], [(.adCopy, errMessage e)]) := by
    rw [generateAllContentCore_eq]
    simp [contentTypes, dataEntry, errEntry, h1, h2, h3, h4]
  refine ⟨generateAllContentOk o d, generateAllContent_of_valid o d hv, ?_, ?_, ?_, ?_⟩
  · rw [data_generateAllContentOk, hcore]
  · simp [generateAllContentOk, hcore]
  · rw [status_generateAllContentOk, hcore]
    simp
  · intro k t
    rw [data_generateAllContentOk]
    exact mem_data_iff o k t

/-- Witness for C3: a concrete valid record and an oracle failing exactly
the `adCopy` call with a 503. -/
theorem generateAllContent_isolated_adCopy_failure_witness :
    ∃ r, generateAllContent adCopyFailsOracle widgetProduct = .ok r ∧
      r.data = [(.title, "generated text"), (.bulletPoints, "generated text"),
                (.aContent, "generated text")] ∧
      r.errors = some [(.adCopy,
        errMessage (mkOpenAIError "Failed to generate adCopy: Service Unavailable" 500))] ∧
      r.status = "partial_success" ∧
      (∀ k t, ((k, t) ∈ r.data ↔ genCall adCopyFailsOracle k = .ok t)) :=
  generateAllContent_isolated_adCopy_failure adCopyFailsOracle widgetProduct (by decide)
    "generated text" "generated text" "generated text"
    (mkOpenAIError "Failed to generate adCopy: Service Unavailable" 500)
    (by decide) (by decide) (by decide) (by decide)

/-- C4: for every record that passes validation, `generateAllContent`
returns normally (never an unhandled throw) with `status = "success"`
exactly when the per-kind failure list is empty and
`status = "partial_success"` exactly when it is not; and when all four
provider calls fail, the returned result carries four failure entries. -/
theorem generateAllContent_status_iff_failures (o : ProviderOracle) (d : ProductData)
    (hv : validateProductData d = .ok ()) :
    ∃ r, generateAllContent o d = .ok r ∧
      (r.status = "success" ↔ errorsOf r = []) ∧
      (r.status = "partial_success" ↔ errorsOf r ≠ []) ∧
      ((∀ k, ∃ e, genCall o k = .error e) → (errorsOf r).length = 4) := by
  have hne : ("partial_success" : String) ≠ "success" := by decide
  refine ⟨generateAllContentOk o d, generateAllContent_of_valid o d hv, ?_, ?_, ?_⟩
  · rw [status_generateAllContentOk, errorsOf_generateAllContentOk]
    by_cases hc : (generateAllContentCore o).2 = []
    · simp [hc]
    · simp [hc, hne]
  · rw [status_generateAllContentOk, errorsOf_generateAllContentOk]
    by_cases hc : (generateAllContentCore o).2 = []
    · simp [hc]
    · simp [hc, hne]
  · intro hall
    obtain ⟨e1, he1⟩ := hall .title
    obtain ⟨e2, he2⟩ := hall .bulletPoints
    obtain ⟨e3, he3⟩ := hall .aContent
    obtain ⟨e4, he4⟩ := hall .adCopy
    rw [errorsOf_generateAllContentOk, generateAllContentCore_eq]
    simp [contentTypes, errEntry, he1, he2, he3, he4]

/-- Witness for C4 on a concrete valid record and a provider failing all
four calls (so the all-fail conjunct is exercised too). -/
theorem generateAllContent_status_iff_failures_witness :
    ∃ r, generateAllContent allFailOracle widgetProduct = .ok r ∧
      (r.status = "success" ↔ errorsOf r = []) ∧
      (r.status = "partial_success" ↔ errorsOf r ≠ []) ∧
      ((∀ k, ∃ e, genCall allFailOracle k = .error e) → (errorsOf r).length = 4) :=
  generateAllContent_status_iff_failures allFailOracle widgetProduct (by decide)

/-- C5 (counterexample to the claim as stated): when the provider rejects
credentials (status 401) on the `title` call of a valid record,
`generateAllContent` does NOT abort the request — the `OpenAIError`
raised for the 401 is caught by the per-kind try/catch and folded into
the failure list of a normally returned `partial_success` result, and the
other three kinds still produce text. -/
theorem auth_error_folded_counterexample :
    generateAllContent oracle401 widgetProduct =
      .ok { productName := .str "Widget", status := "partial_success",
            data := [(.bulletPoints, "generated text"), (.aContent, "generated text"),
                     (.adCopy, "generated text")],
            errors := some [(.title, "Invalid OpenAI API key")] } := by
  decide

/-- C5 (amended): a 401 from the provider during any per-kind call raises
`OpenAIError('Invalid OpenAI API key', 401)` inside `generateContent`,
which `generateAllContent` catches per kind like any other provider
failure: it is recorded as that kind's failure entry and the enclosing
generation still returns normally — it is per-kind recoverable, not
fatal for the request. -/
theorem auth_error_recorded_per_kind (o : ProviderOracle) (d : ProductData)
    (hv : validateProductData d = .ok ()) (k : ContentKind) (f : ProviderFailure)
    (hk : o k = .err f) (hs : f.status = some 401) :
    ∃ r, generateAllContent o d = .ok r ∧
      (k, "Invalid OpenAI API key") ∈ errorsOf r := by
  have hcall : genCall o k = .error (mkOpenAIError "Invalid OpenAI API key" 401) := by
    simp [genCall, generateContent, hk, hs]
  refine ⟨generateAllContentOk o d, generateAllContent_of_valid o d hv, ?_⟩
  rw [errorsOf_generateAllContentOk]
  exact (mem_errors_iff o k _).mpr ⟨_, hcall, rfl⟩

/-- Witness for C5 (amended): the 401-on-`title` oracle on a concrete
valid record. -/
theorem auth_error_recorded_per_kind_witness :
    ∃ r, generateAllContent oracle401 widgetProduct = .ok r ∧
      (ContentKind.title, "Invalid OpenAI API key") ∈ errorsOf r :=
  auth_error_recorded_per_kind oracle401 widgetProduct (by decide) .title
    { status := some 401, message := "Unauthorized" } rfl rfl

/-- C6: on every record whose `name` and `category` fields are in the
domain where the checks evaluate without a TypeError (falsy or string —
the shape every caller in the repo supplies), `validateProductData` is a
pure function that returns normally when no constraint is violated and
otherwise raises a single `ValidationError` whose message is ALL violated
constraints' messages joined with `"; "`; the last four conjuncts state
that each constraint's message is listed exactly when that constraint is
violated. -/
theorem validateProduct_lists_all_violations (d : ProductData)
    (hn : stringOrFalsy d.name) (hc : stringOrFalsy d.category) :
    (violationMsgs d = [] → validateProductData d = .ok ()) ∧
    (violationMsgs d ≠ [] →
      validateProductData d =
        .error (mkValidationError (String.intercalate "; " (violationMsgs d)))) ∧
    ("Product name is required" ∈ violationMsgs d ↔ requiredViolationB d.name = true) ∧
    ("Product category is required" ∈ violationMsgs d ↔ requiredViolationB d.category = true) ∧
    ("Product price must be a valid positive number" ∈ violationMsgs d ↔
      priceViolationB d.price = true) ∧
    ("Product features must be a string" ∈ violationMsgs d ↔
      featuresViolationB d.features = true) := by
  have hpv := productViolations_eq d hn hc
  refine ⟨?_, ?_, ?_⟩
  · intro h0
    simp [validateProductData, hpv, h0]
  · intro h0
    simp [validateProductData, hpv, List.length_pos.mpr h0]
  · by_cases b1 : requiredViolationB d.name = true <;>
      by_cases b2 : requiredViolationB d.category = true <;>
      by_cases b3 : priceViolationB d.price = true <;>
      by_cases b4 : featuresViolationB d.features = true <;>
      simp_all [violationMsgs]

/-- Witness for C6: a record with two violations (blank name, negative
price) yields both messages joined with `"; "`; the remaining conjuncts
are instantiated at the same record. -/
theorem validateProduct_lists_all_violations_witness :
    (violationMsgs badProduct = [] → validateProductData badProduct = .ok ()) ∧
    (violationMsgs badProduct ≠ [] →
      validateProductData badProduct =
        .error (mkValidationError (String.intercalate "; " (violationMsgs badProduct)))) ∧
    ("Product name is required" ∈ violationMsgs badProduct ↔
      requiredViolationB badProduct.name = true) ∧
    ("Product category is required" ∈ violationMsgs badProduct ↔
      requiredViolationB badProduct.category = true) ∧
    ("Product price must be a valid positive number" ∈ violationMsgs badProduct ↔
      priceViolationB badProduct.price = true) ∧
    ("Product features must be a string" ∈ violationMsgs badProduct ↔
      featuresViolationB badProduct.features = true) :=
  validateProduct_lists_all_violations badProduct (Or.inr ⟨"", rfl⟩) (Or.inr ⟨"Tools", rfl⟩)

lemma status_ge500_check_false (status : Option ℕ) (h : ∀ n, status = some n → n < 500) :
    statusAtLeast500 status = false := by
  cases status with
  | none => rfl
  | some n => simpa [statusAtLeast500] using Nat.not_le.mpr (h n rfl)

/-- C7: `formatErrorResponse` on a `QuotaError` yields code
`QUOTA_EXCEEDED` (with the error's 429 statusCode driving the HTTP
status); on a `plain` error with no recognized shape (not an `APIError`,
status none of 429 / 401 / ≥ 500) it yields code `UNKNOWN_ERROR` with the
original message preserved when present (and non-empty, per the
`error.message || fallback` idiom) and the fixed fallback otherwise; and
no formatted payload ever contains a `stack` key. -/
theorem formatError_quota_unknown_no_stack (now : String) :
    ((formatErrorResponse now mkQuotaError).lookup "code" = some "QUOTA_EXCEEDED" ∧
     (formatErrorResponse now mkQuotaError).lookup "error" = some quotaErrorDefaultMessage ∧
     errorStatusCode mkQuotaError = 429) ∧
    (∀ msg status, status ≠ some 429 → status ≠ some 401 →
      (∀ n, status = some n → n < 500) →
      ((formatErrorResponse now (.plain msg status)).lookup "code" = some "UNKNOWN_ERROR" ∧
       (∀ m, msg = some m → m ≠ "" →
         (formatErrorResponse now (.plain msg status)).lookup "error" = some m) ∧
       (msg = none →
         (formatErrorResponse now (.plain msg status)).lookup "error" =
           some unexpectedErrorMessage))) ∧
    (∀ e, "stack" ∉ (formatErrorResponse now e).map Prod.fst) := by
  refine ⟨⟨rfl, rfl, rfl⟩, ?_, ?_⟩
  · intro msg status h1 h2 h3
    have e1 : (status == some 429) = false := beq_eq_false_iff_ne.mpr h1
    have e2 : (status == some 401) = false := beq_eq_false_iff_ne.mpr h2
    have e3 := status_ge500_check_false status h3
    refine ⟨?_, ?_, ?_⟩
    · simp only [formatErrorResponse, e1, e2, e3]
      rfl
    · intro m hm hm2
      have e4 : (m == "") = false := beq_eq_false_iff_ne.mpr hm2
      simp only [formatErrorResponse, e1, e2, e3, hm, e4]
      rfl
    · intro hm
      simp only [formatErrorResponse, e1, e2, e3, hm]
      rfl
  · intro e
    cases e with
    | apiError msg sc code field =>
      cases field with
      | none => simp [formatErrorResponse]
      | some f => by_cases hf : (f == "") = true <;> simp [formatErrorResponse, hf]
    | plain msg status =>
      simp only [formatErrorResponse]
      split_ifs <;> simp

/-- Witness for C7, instantiating the universally quantified part at the
clock reading `"ts"`, an unrecognized-shape error carrying message
`"boom"` and no status, and checking the QuotaError and no-stack parts at
the same instantiation. -/
theorem formatError_quota_unknown_no_stack_witness :
    ((formatErrorResponse "ts" mkQuotaError).lookup "code" = some "QUOTA_EXCEEDED" ∧
     (formatErrorResponse "ts" mkQuotaError).lookup "error" = some quotaErrorDefaultMessage ∧
     errorStatusCode mkQuotaError = 429) ∧
    ((formatErrorResponse "ts" (.plain (some "boom") none)).lookup "code" =
        some "UNKNOWN_ERROR" ∧
     (formatErrorResponse "ts" (.plain (some "boom") none)).lookup "error" = some "boom") ∧
    "stack" ∉ (formatErrorResponse "ts" (.plain (some "boom") none)).map Prod.fst := by
  have h := formatError_quota_unknown_no_stack "ts"
  have hu := h.2.1 (some "boom") none (by decide) (by decide) (fun n hn => Option.noConfusion hn)
  exact ⟨h.1, ⟨hu.1, hu.2.1 "boom" rfl (by decide)⟩, h.2.2 (.plain (some "boom") none)⟩

/-- C8: `generateContent` classifies a provider failure by its reported
status — 429 raises the `QuotaError` (code QUOTA_EXCEEDED, statusCode
429), 401 raises the auth `OpenAIError('Invalid OpenAI API key', 401)`,
and any other failure raises an `OpenAIError` whose message wraps the
underlying message tagged with the failing content kind's name. -/
theorem generateContent_classifies_by_status (kind : ContentKind) (f : ProviderFailure) :
    (f.status = some 429 →
      generateContent (.err f) kind = .error mkQuotaError ∧
      errorStatusCode mkQuotaError = 429) ∧
    (f.status = some 401 →
      generateContent (.err f) kind = .error (mkOpenAIError "Invalid OpenAI API key" 401)) ∧
    (f.status ≠ some 429 → f.status ≠ some 401 →
      generateContent (.err f) kind =
        .error (mkOpenAIError ("Failed to generate " ++ kindName kind ++ ": " ++ f.message) 500)) := by
  refine ⟨?_, ?_, ?_⟩
  · intro h
    exact ⟨by simp [generateContent, h], rfl⟩
  · intro h
    simp [generateContent, h]
  · intro h1 h2
    simp [generateContent, beq_eq_false_iff_ne.mpr h1, beq_eq_false_iff_ne.mpr h2]

/-- Witness for C8 at the `adCopy` kind: a 503 failure is wrapped as a
kind-tagged `OpenAIError` (the 429 and 401 conjuncts hold vacuously and
the third is discharged at this concrete failure). -/
theorem generateContent_classifies_by_status_witness :
    (({ status := some 503, message := "Service Unavailable" } : ProviderFailure).status =
        some 429 →
      generateContent (.err { status := some 503, message := "Service Unavailable" }) .adCopy =
        .error mkQuotaError ∧ errorStatusCode mkQuotaError = 429) ∧
    (({ status := some 503, message := "Service Unavailable" } : ProviderFailure).status =
        some 401 →
      generateContent (.err { status := some 503, message := "Service Unavailable" }) .adCopy =
        .error (mkOpenAIError "Invalid OpenAI API key" 401)) ∧
    (({ status := some 503, message := "Service Unavailable" } : ProviderFailure).status ≠
        some 429 →
      ({ status := some 503, message := "Service Unavailable" } : ProviderFailure).status ≠
        some 401 →
      generateContent (.err { status := some 503, message := "Service Unavailable" }) .adCopy =
        .error (mkOpenAIError
          ("Failed to generate " ++ kindName .adCopy ++ ": " ++
            ({ status := some 503, message := "Service Unavailable" } : ProviderFailure).message)
          500)) :=
  generateContent_classifies_by_status .adCopy { status := some 503, message := "Service Unavailable" }

/-- C9: on a record with valid (string, non-blank) `name` and `category`
and row-shaped `features` (string or absent), a price of `"19.99"` passes
validation, and a price of `"-5"` fails with a `ValidationError` whose
message mentions price (made explicit by exhibiting the message as
`pre ++ "price" ++ post`). -/
theorem price_string_roundtrip (d : ProductData) (n c : String)
    (hn : d.name = .str n) (hn2 : jsTrim n ≠ "")
    (hc : d.category = .str c) (hc2 : jsTrim c ≠ "")
    (hf : stringOrFalsy d.features) :
    (d.price = .str "19.99" → validateProductData d = .ok ()) ∧
    (d.price = .str "-5" →
      ∃ pre post,
        validateProductData d = .error (mkValidationError (pre ++ "price" ++ post))) := by
  have hnb : requiredViolationB d.name = false := by
    rw [hn]
    simp [requiredViolationB, beq_eq_false_iff_ne.mpr hn2]
  have hcb : requiredViolationB d.category = false := by
    rw [hc]
    simp [requiredViolationB, beq_eq_false_iff_ne.mpr hc2]
  have hfb : featuresViolationB d.features = false :=
    stringOrFalsy_no_featuresViolation d.features hf
  have hsn : stringOrFalsy d.name := Or.inr ⟨n, hn⟩
  have hsc : stringOrFalsy d.category := Or.inr ⟨c, hc⟩
  constructor
  · intro hp
    have hpb : priceViolationB d.price = false := by rw [hp]; decide
    have hv0 : violationMsgs d = [] := by
      simp [violationMsgs, hnb, hcb, hpb, hfb]
    simp [validateProductData, productViolations_eq d hsn hsc, hv0]
  · intro hp
    have hpb : priceViolationB d.price = true := by rw [hp]; decide
    have hv1 : violationMsgs d = ["Product price must be a valid positive number"] := by
      simp [violationMsgs, hnb, hcb, hpb, hfb]
    refine ⟨"Product ", " must be a valid positive number", ?_⟩
    simp [validateProductData, productViolations_eq d hsn hsc, hv1]
    rfl

/-- Witness for C9 at two concrete records differing only in price. -/
theorem price_string_roundtrip_witness :
    (priced1999Product.price = .str "19.99" →
      validateProductData priced1999Product = .ok ()) ∧
    (priced1999Product.price = .str "-5" →
      ∃ pre post,
        validateProductData priced1999Product =
          .error (mkValidationError (pre ++ "price" ++ post))) :=
  price_string_roundtrip priced1999Product "Widget" "Tools" rfl (by decide) rfl (by decide)
    (Or.inr ⟨"Durable", rfl⟩)

/-- C10: on a record with valid `name` and `category` (and row-shaped
`features`), a price that is present but `null` or the empty string
passes validation with no price violation recorded: `Number(null)` and
`Number("")` are `0`, so `isNaN` rejects neither, while
`parseFloat(null)` and `parseFloat("")` are NaN, and `NaN < 0` is false. -/
theorem price_null_or_empty_passes (d : ProductData) (n c : String)
    (hn : d.name = .str n) (hn2 : jsTrim n ≠ "")
    (hc : d.category = .str c) (hc2 : jsTrim c ≠ "")
    (hf : stringOrFalsy d.features)
    (hp : d.price = .nullV ∨ d.price = .str "") :
    validateProductData d = .ok () ∧ priceViolationB d.price = false := by
  have hnb : requiredViolationB d.name = false := by
    rw [hn]
    simp [requiredViolationB, beq_eq_false_iff_ne.mpr hn2]
  have hcb : requiredViolationB d.category = false := by
    rw [hc]
    simp [requiredViolationB, beq_eq_false_iff_ne.mpr hc2]
  have hfb : featuresViolationB d.features = false :=
    stringOrFalsy_no_featuresViolation d.features hf
  have hpb : priceViolationB d.price = false := by
    rcases hp with hp | hp <;> rw [hp] <;> decide
  have hv0 : violationMsgs d = [] := by
    simp [violationMsgs, hnb, hcb, hpb, hfb]
  refine ⟨?_, hpb⟩
  simp [validateProductData, productViolations_eq d (Or.inr ⟨n, hn⟩) (Or.inr ⟨c, hc⟩), hv0]

/-- Witness for C10 at a concrete record with a `null` price. -/
theorem price_null_or_empty_passes_witness :
    validateProductData nullPricedProduct = .ok () ∧
    priceViolationB nullPricedProduct.price = false :=
  price_null_or_empty_passes nullPricedProduct "Widget" "Tools" rfl (by decide) rfl (by decide)
    (Or.inr ⟨"Durable", rfl⟩) (Or.inl rfl)

end ContentAutomation
